import Mathlib

/-!
Shallow embedding of the tool-calling orchestration engine of
`backend/ai_generator.py` (class `AIGenerator`), together with the parts of
its collaborators that the verified properties need.

Modelling conventions:
* The generative backend (`self.client.messages.create`) is modelled as a
  function `Nat → Response`: the value at `n` is the response to the
  `n`-th backend call of the run (0-indexed).  This quantifies over every
  possible backend behaviour.
* A tool manager behaviour is a function from tool name and keyword
  arguments to the textual tool result (`ToolManager`); `Option ToolManager`
  models the `tool_manager=None` default.
* `config.MAX_TOOL_ROUNDS` lives in `config.py`, which is not part of the
  sources here (the tests set it to 2); it is modelled as an explicit
  parameter `maxToolRounds` of `generate_response`.
* Each backend request assembled in `api_params` is recorded as a `Request`
  capturing the system string, the message list, and whether the `tools`
  and `tool_choice` keys were present in the request dictionary.
* The run result records the final answer string, the list of requests in
  order, and one dispatch list per tool-execution round.
-/

namespace AIGen

/-- A content block of a backend response.  The Python source duck-types
these (`content_block.type`, `.text`, `.id`, `.name`, `.input`), so the
embedding gives every block all five fields. -/
structure ContentBlock where
  type : String
  text : String
  id : String
  name : String
  input : List (String × String)
deriving DecidableEq, Repr

/-- A backend response: a stop condition and an ordered content list. -/
structure Response where
  stop_reason : String
  content : List ContentBlock
deriving DecidableEq, Repr

/-- A tool-result block, as built in `_execute_tools_and_update_messages`:
`{"type": "tool_result", "tool_use_id": ..., "content": ...}`. -/
structure ToolResultBlock where
  tool_use_id : String
  content : String
deriving DecidableEq, Repr

/-- The content of one message of the conversation list: plain text, the
assistant's raw structured content, or a batch of tool results. -/
inductive MessageContent where
  | text (s : String)
  | blocks (bs : List ContentBlock)
  | toolResults (rs : List ToolResultBlock)
deriving DecidableEq, Repr

/-- One entry of the `messages` list. -/
structure Message where
  role : String
  content : MessageContent
deriving DecidableEq, Repr

/-- One recorded tool dispatch: the name and keyword arguments passed to
`tool_manager.execute_tool`. -/
structure Dispatch where
  name : String
  input : List (String × String)
deriving DecidableEq, Repr

/-- One backend request, as assembled in `api_params` / `final_params`:
`hasTools` and `hasToolChoice` record whether the `"tools"` and
`"tool_choice"` keys are present in the request dictionary at all. -/
structure Request where
  system : String
  messages : List Message
  hasTools : Bool
  hasToolChoice : Bool
deriving DecidableEq, Repr

/-- A tool manager behaviour: `execute_tool(name, **kwargs)` as a function
from the tool name and keyword arguments to the result text. -/
abbrev ToolManager : Type := String → List (String × String) → String

/-- An entry of the `tools` list passed to the backend (opaque schema). -/
abbrev ToolSchema : Type := String

/-- The observable outcome of one `generate_response` run: the returned
answer, the backend requests in order, and the tool dispatches grouped by
round. -/
structure RunResult where
  answer : String
  requests : List Request
  dispatchRounds : List (List Dispatch)
deriving DecidableEq, Repr

/-- The static system prompt `AIGenerator.SYSTEM_PROMPT`. -/
def SYSTEM_PROMPT : String := " You are an AI assistant specialized in course materials and educational content with access to tools for querying course information.

Tool Usage Guidelines:
- **Search Tool** (`search_course_content`): Use for questions about specific course content, concepts, or detailed materials
- **Outline Tool** (`get_course_outline`): Use when users ask about course structure, lesson list, table of contents, or \"what's in this course\"
- **Maximum two tool rounds per query** - you can make tool calls across multiple rounds if needed
- Use sequential tool calls when one result informs the next search:
  - Example: First get course outline to learn lesson titles, then search specific lesson content
  - Example: Compare topics by searching multiple courses sequentially
- Synthesize tool results into accurate, fact-based responses
- If tools yield no results, state this clearly without offering alternatives

Outline vs Search Decision:
- \"What lessons are in X?\" → Use outline tool
- \"Tell me about X concept\" → Use search tool
- \"Show me course outline\" → Use outline tool
- \"What does lesson Y cover?\" → Use search tool with lesson filter

Response Protocol:
- **General knowledge questions**: Answer using existing knowledge without searching
- **Course-specific questions**: Search first, then answer
- **No meta-commentary**:
 - Provide direct answers only — no reasoning process, search explanations, or question-type analysis
 - Do not mention \"based on the search results\"


All responses must be:
1. **Brief, Concise and focused** - Get to the point quickly
2. **Educational** - Maintain instructional value
3. **Clear** - Use accessible language
4. **Example-supported** - Include relevant examples when they aid understanding
Provide only the direct answer to what was asked.
"

/-- `response.content[0].text`: the text of the first content block (the
claims that rely on it assume a non-empty content list, as the Python code
does). -/
def firstText (r : Response) : String :=
  (r.content.headD (ContentBlock.mk "" "" "" "" [])).text

/-- The body of the `for content_block in response.content:` loop of
`_execute_tools_and_update_messages`: walks the content blocks in order,
dispatching each block whose `type` is `"tool_use"` through the tool
manager; returns the collected tool-result blocks together with the
dispatch trace, both in block order. -/
def runToolBlocks (tool_manager : ToolManager) :
    List ContentBlock → List ToolResultBlock × List Dispatch
  | [] => ([], [])
  | b :: bs =>
    let rest := runToolBlocks tool_manager bs
    if b.type == "tool_use" then
      (ToolResultBlock.mk b.id (tool_manager b.name b.input) :: rest.1,
       Dispatch.mk b.name b.input :: rest.2)
    else
      rest

/-- `_execute_tools_and_update_messages(response, messages, tool_manager)`:
appends the assistant's raw content, then (if any tool results were
collected) a single user message batching all of them. -/
def execute_tools_and_update_messages (response : Response)
    (messages : List Message) (tool_manager : ToolManager) : List Message :=
  let messages := messages ++ [Message.mk "assistant" (MessageContent.blocks response.content)]
  let tool_results := (runToolBlocks tool_manager response.content).1
  if tool_results.isEmpty then messages
  else messages ++ [Message.mk "user" (MessageContent.toolResults tool_results)]

/-- The `for round_num in range(config.MAX_TOOL_ROUNDS):` loop of
`generate_response`, plus the forced final synthesis call after it.
`fuel` is the number of loop iterations still available, `n` the index of
the next backend call. -/
def toolLoop (backend : Nat → Response) (tool_manager : Option ToolManager)
    (system_content : String) (hasTools : Bool) :
    Nat → List Message → Nat → RunResult
  | 0, messages, n =>
    -- Hit max rounds: final synthesis call WITHOUT tools.
    { answer := firstText (backend n)
      requests := [Request.mk system_content messages false false]
      dispatchRounds := [] }
  | fuel + 1, messages, n =>
    let response := backend n
    let req := Request.mk system_content messages hasTools hasTools
    if response.stop_reason ≠ "tool_use" then
      -- No tools needed: return the final answer.
      { answer := firstText response, requests := [req], dispatchRounds := [] }
    else
      match tool_manager with
      | some tm =>
        let rest := toolLoop backend tool_manager system_content hasTools fuel
          (execute_tools_and_update_messages response messages tm) (n + 1)
        { answer := rest.answer
          requests := req :: rest.requests
          dispatchRounds := (runToolBlocks tm response.content).2 :: rest.dispatchRounds }
      | none =>
        -- No tool manager but tools requested: return the text anyway.
        { answer := firstText response, requests := [req], dispatchRounds := [] }

/-- The `system_content` conditional at the top of `generate_response`:
the static prompt, suffixed with the previous conversation when one is
present (Python truthiness: `None` and `""` both fall back to the bare
prompt). -/
def systemContent (conversation_history : Option String) : String :=
  match conversation_history with
  | some h =>
    if h.isEmpty then SYSTEM_PROMPT
    else SYSTEM_PROMPT ++ "\n\nPrevious conversation:\n" ++ h
  | none => SYSTEM_PROMPT

/-- `AIGenerator.generate_response(query, conversation_history, tools,
tool_manager)`.  `maxToolRounds` stands for `config.MAX_TOOL_ROUNDS`
(from `config.py`, configured to 2 in the tests).  Python truthiness of
`conversation_history` and of `tools` is modelled explicitly. -/
def generate_response (maxToolRounds : Nat) (backend : Nat → Response)
    (query : String) (conversation_history : Option String)
    (tools : List ToolSchema) (tool_manager : Option ToolManager) : RunResult :=
  let system_content := systemContent conversation_history
  let messages := [Message.mk "user" (MessageContent.text query)]
  let hasTools := !tools.isEmpty
  toolLoop backend tool_manager system_content hasTools maxToolRounds messages 0

/-- Modelled from the spec: the Tool Registry (class `ToolManager` in
`search_tools.py`) is not among the sources here, only its callers and
tests are.  Spec §4.4: the registry "stores by name"; a registry is an
association list from tool names to execute functions. -/
def ToolRegistry : Type := List (String × (List (String × String) → String))

/-- Modelled from the spec: `ToolManager.execute_tool(name, **kwargs)`
(`search_tools.py`, not among the sources).  Spec §4.4: dispatch "fails
with an 'unknown tool' result (not an exception) if name is absent, else
forwards kwargs to the tool's `execute`".  The result is `Except` so that
a raised exception is representable as `.error`; the unknown-tool branch
returns an ordinary result text carrying the "unknown tool" marker. -/
def execute_tool (registry : ToolRegistry) (name : String)
    (kwargs : List (String × String)) : Except String String :=
  match registry.find? (fun p => p.1 == name) with
  | some p => Except.ok (p.2 kwargs)
  | none => Except.ok ("unknown tool: " ++ name)

/-- The tool-manager behaviour induced by a registry, as the orchestrator
consumes it. -/
def registryToolManager (registry : ToolRegistry) : ToolManager := fun name kwargs =>
  match execute_tool registry name kwargs with
  | Except.ok s => s
  | Except.error s => s

/-! ### Helper lemmas -/

/-- `generate_response` unfolded to its loop. -/
theorem generate_response_def (maxToolRounds : Nat) (backend : Nat → Response)
    (query : String) (conversation_history : Option String)
    (tools : List ToolSchema) (tool_manager : Option ToolManager) :
    generate_response maxToolRounds backend query conversation_history tools tool_manager =
      toolLoop backend tool_manager (systemContent conversation_history) (!tools.isEmpty)
        maxToolRounds [Message.mk "user" (MessageContent.text query)] 0 := rfl

/-- Index zero of a list is its head. -/
theorem getElem?_zero_eq_head? {α : Type} (l : List α) : l[0]? = l.head? := by
  cases l <;> simp

/-- `getLast?` of a cons with a non-empty tail is `getLast?` of the tail. -/
theorem getLast?_cons_of_ne_nil {α : Type} (a : α) (l : List α) (h : l ≠ []) :
    (a :: l).getLast? = l.getLast? := by
  cases l with
  | nil => exact absurd rfl h
  | cons b t => simp [List.getLast?]

/-- Closed form of the tool-execution loop: results and dispatch trace are
the tool-use blocks, in order, mapped through the tool manager. -/
theorem runToolBlocks_eq (tool_manager : ToolManager) (bs : List ContentBlock) :
    runToolBlocks tool_manager bs =
      ((bs.filter fun b => b.type == "tool_use").map
         (fun b => ToolResultBlock.mk b.id (tool_manager b.name b.input)),
       (bs.filter fun b => b.type == "tool_use").map
         (fun b => Dispatch.mk b.name b.input)) := by
  induction bs with
  | nil => rfl
  | cons b bs ih =>
    by_cases h : b.type == "tool_use" <;>
      simp [runToolBlocks, List.filter_cons, h, ih]

/-- Every run of the loop issues at most `fuel + 1` backend calls. -/
theorem toolLoop_requests_length_le (backend : Nat → Response)
    (tool_manager : Option ToolManager) (sys : String) (ht : Bool) :
    ∀ fuel msgs n,
      (toolLoop backend tool_manager sys ht fuel msgs n).requests.length ≤ fuel + 1 := by
  intro fuel
  induction fuel with
  | zero => intro msgs n; simp [toolLoop]
  | succ f ih =>
    intro msgs n
    by_cases h : (backend n).stop_reason = "tool_use"
    · cases tool_manager with
      | none => simp [toolLoop, h]
      | some tm =>
        simp only [toolLoop, h, ne_eq, not_true_eq_false, if_false, List.length_cons]
        exact Nat.succ_le_succ (ih _ _)
    · simp [toolLoop, h]

/-- Every run of the loop issues at least one backend call. -/
theorem toolLoop_requests_length_pos (backend : Nat → Response)
    (tool_manager : Option ToolManager) (sys : String) (ht : Bool)
    (fuel : Nat) (msgs : List Message) (n : Nat) :
    1 ≤ (toolLoop backend tool_manager sys ht fuel msgs n).requests.length := by
  cases fuel with
  | zero => simp [toolLoop]
  | succ f =>
    by_cases h : (backend n).stop_reason = "tool_use"
    · cases tool_manager with
      | none => simp [toolLoop, h]
      | some tm => simp [toolLoop, h]
    · simp [toolLoop, h]

/-- The first request of any loop run carries the system content and the
message list the loop was entered with. -/
theorem toolLoop_requests_head (backend : Nat → Response)
    (tool_manager : Option ToolManager) (sys : String) (ht : Bool)
    (fuel : Nat) (msgs : List Message) (n : Nat) :
    ∃ b c : Bool,
      (toolLoop backend tool_manager sys ht fuel msgs n).requests.head? =
        some (Request.mk sys msgs b c) := by
  cases fuel with
  | zero => exact ⟨false, false, rfl⟩
  | succ f =>
    by_cases h : (backend n).stop_reason = "tool_use"
    · cases tool_manager with
      | none => exact ⟨ht, ht, by simp [toolLoop, h]⟩
      | some tm => exact ⟨ht, ht, by simp [toolLoop, h]⟩
    · exact ⟨ht, ht, by simp [toolLoop, h]⟩

/-- If every response the loop sees requests tool use, the loop runs all
its rounds and ends in the forced synthesis call: `fuel + 1` backend
calls, `fuel` dispatch rounds, a final request without tools or tool
choice, and the final response's first text as the answer. -/
theorem toolLoop_alltools (backend : Nat → Response) (tm : ToolManager)
    (sys : String) (ht : Bool) :
    ∀ fuel msgs n,
      (∀ i, i < fuel → (backend (n + i)).stop_reason = "tool_use") →
      (toolLoop backend (some tm) sys ht fuel msgs n).answer =
        firstText (backend (n + fuel)) ∧
      (toolLoop backend (some tm) sys ht fuel msgs n).requests.length = fuel + 1 ∧
      (toolLoop backend (some tm) sys ht fuel msgs n).dispatchRounds.length = fuel ∧
      ∃ ms, (toolLoop backend (some tm) sys ht fuel msgs n).requests.getLast? =
        some (Request.mk sys ms false false) := by
  intro fuel
  induction fuel with
  | zero =>
    intro msgs n _
    exact ⟨by simp [toolLoop], rfl, rfl, ⟨msgs, rfl⟩⟩
  | succ f ih =>
    intro msgs n hall
    have h0 : (backend n).stop_reason = "tool_use" := by
      simpa using hall 0 (Nat.succ_pos f)
    have hall' : ∀ i, i < f → (backend (n + 1 + i)).stop_reason = "tool_use" := by
      intro i hi
      have h := hall (i + 1) (by omega)
      have e : n + (i + 1) = n + 1 + i := by omega
      rwa [e] at h
    obtain ⟨ha, hlen, hdlen, ms, hlast⟩ :=
      ih (execute_tools_and_update_messages (backend n) msgs tm) (n + 1) hall'
    have hunf : toolLoop backend (some tm) sys ht (f + 1) msgs n =
        { answer := (toolLoop backend (some tm) sys ht f
            (execute_tools_and_update_messages (backend n) msgs tm) (n + 1)).answer
          requests := Request.mk sys msgs ht ht ::
            (toolLoop backend (some tm) sys ht f
              (execute_tools_and_update_messages (backend n) msgs tm) (n + 1)).requests
          dispatchRounds := (runToolBlocks tm (backend n).content).2 ::
            (toolLoop backend (some tm) sys ht f
              (execute_tools_and_update_messages (backend n) msgs tm) (n + 1)).dispatchRounds } := by
      simp [toolLoop, h0]
    have hne : (toolLoop backend (some tm) sys ht f
        (execute_tools_and_update_messages (backend n) msgs tm) (n + 1)).requests ≠ [] := by
      intro hnil
      rw [hnil] at hlen
      exact absurd hlen (by simp)
    rw [hunf]
    have e : n + 1 + f = n + (f + 1) := by omega
    refine ⟨by simpa [e] using ha, by simp [hlen], by simp [hdlen], ms, ?_⟩
    simpa [getLast?_cons_of_ne_nil _ _ hne] using hlast

/-! ### Claims -/

/-- C1: for every backend behaviour (including ones that request tool use
in every round) and every tool manager behaviour, `generate_response`
terminates after at most `maxToolRounds + 1` backend calls. -/
theorem c1_termination_bound (maxToolRounds : Nat) (backend : Nat → Response)
    (query : String) (conversation_history : Option String)
    (tools : List ToolSchema) (tool_manager : Option ToolManager) :
    (generate_response maxToolRounds backend query conversation_history tools
        tool_manager).requests.length ≤ maxToolRounds + 1 :=
  toolLoop_requests_length_le backend tool_manager _ _ maxToolRounds _ 0

/-- C3: processing a response appends the assistant's raw structured
content unchanged, dispatches tool-use blocks in the order they appear
(the dispatch trace equals the tool-use blocks in content order), batches
all the round's tool results — each carrying the `id` of the block it
answers — into at most one single user-role message, and never appends one
message per result (at most two messages are added in total). -/
theorem c3_tool_round_batching (response : Response) (messages : List Message)
    (tool_manager : ToolManager) :
    execute_tools_and_update_messages response messages tool_manager =
      (messages ++ [Message.mk "assistant" (MessageContent.blocks response.content)]) ++
        (if (response.content.filter fun b => b.type == "tool_use").isEmpty then []
         else [Message.mk "user" (MessageContent.toolResults
            ((response.content.filter fun b => b.type == "tool_use").map
              (fun b => ToolResultBlock.mk b.id (tool_manager b.name b.input))))]) ∧
    (runToolBlocks tool_manager response.content).2 =
      (response.content.filter fun b => b.type == "tool_use").map
        (fun b => Dispatch.mk b.name b.input) ∧
    (execute_tools_and_update_messages response messages tool_manager).length ≤
      messages.length + 2 := by
  have h1 : execute_tools_and_update_messages response messages tool_manager =
      (messages ++ [Message.mk "assistant" (MessageContent.blocks response.content)]) ++
        (if (response.content.filter fun b => b.type == "tool_use").isEmpty then []
         else [Message.mk "user" (MessageContent.toolResults
            ((response.content.filter fun b => b.type == "tool_use").map
              (fun b => ToolResultBlock.mk b.id (tool_manager b.name b.input))))]) := by
    by_cases hE : (response.content.filter fun b => b.type == "tool_use") = [] <;>
      simp [execute_tools_and_update_messages, runToolBlocks_eq, hE]
  refine ⟨h1, by simp [runToolBlocks_eq], ?_⟩
  rw [h1]
  by_cases hE : (response.content.filter fun b => b.type == "tool_use") = [] <;>
    simp [hE]

/-- C4: if the backend's first response has a stop condition other than
tool-use, exactly one backend call is made, zero tool dispatches occur,
and that response's first text is returned as-is. -/
theorem c4_non_tool_first_response (maxToolRounds : Nat) (backend : Nat → Response)
    (query : String) (conversation_history : Option String)
    (tools : List ToolSchema) (tool_manager : Option ToolManager)
    (h : (backend 0).stop_reason ≠ "tool_use") :
    (generate_response maxToolRounds backend query conversation_history tools
        tool_manager).requests.length = 1 ∧
    (generate_response maxToolRounds backend query conversation_history tools
        tool_manager).dispatchRounds = [] ∧
    (generate_response maxToolRounds backend query conversation_history tools
        tool_manager).answer = firstText (backend 0) := by
  cases maxToolRounds with
  | zero => exact ⟨rfl, rfl, rfl⟩
  | succ f => simp [generate_response, toolLoop, h]

/-- C4 witness: a concrete run whose first response ends the turn makes
one backend call, dispatches nothing, and returns that response's text. -/
theorem c4_witness :
    (generate_response 2 (fun _ => Response.mk "end_turn" [ContentBlock.mk "text" "A" "" "" []])
        "q" none ["s"] (some fun _ _ => "r")).requests.length = 1 ∧
    (generate_response 2 (fun _ => Response.mk "end_turn" [ContentBlock.mk "text" "A" "" "" []])
        "q" none ["s"] (some fun _ _ => "r")).dispatchRounds = [] ∧
    (generate_response 2 (fun _ => Response.mk "end_turn" [ContentBlock.mk "text" "A" "" "" []])
        "q" none ["s"] (some fun _ _ => "r")).answer = "A" := by
  have h := c4_non_tool_first_response 2
    (fun _ => Response.mk "end_turn" [ContentBlock.mk "text" "A" "" "" []])
    "q" none ["s"] (some fun _ _ => "r") (by decide)
  exact ⟨h.1, h.2.1, h.2.2.trans (by decide)⟩

/-- C7: if a response requests tool use but no tool manager was supplied,
the run skips all tool execution and returns that response's text with no
further backend calls. -/
theorem c7_no_tool_manager (maxToolRounds : Nat) (backend : Nat → Response)
    (query : String) (conversation_history : Option String)
    (tools : List ToolSchema)
    (h : (backend 0).stop_reason = "tool_use") :
    (generate_response maxToolRounds backend query conversation_history tools
        none).requests.length = 1 ∧
    (generate_response maxToolRounds backend query conversation_history tools
        none).dispatchRounds = [] ∧
    (generate_response maxToolRounds backend query conversation_history tools
        none).answer = firstText (backend 0) := by
  cases maxToolRounds with
  | zero => exact ⟨rfl, rfl, rfl⟩
  | succ f => simp [generate_response, toolLoop, h]

/-- C7 witness: a concrete tool-use response with `tool_manager = none`
yields one backend call, no dispatches, and the raw text of that
response. -/
theorem c7_witness :
    (generate_response 2
        (fun _ => Response.mk "tool_use" [ContentBlock.mk "text" "T" "id1" "search" []])
        "q" none ["s"] none).requests.length = 1 ∧
    (generate_response 2
        (fun _ => Response.mk "tool_use" [ContentBlock.mk "text" "T" "id1" "search" []])
        "q" none ["s"] none).dispatchRounds = [] ∧
    (generate_response 2
        (fun _ => Response.mk "tool_use" [ContentBlock.mk "text" "T" "id1" "search" []])
        "q" none ["s"] none).answer = "T" := by
  have h := c7_no_tool_manager 2
    (fun _ => Response.mk "tool_use" [ContentBlock.mk "text" "T" "id1" "search" []])
    "q" none ["s"] (by decide)
  exact ⟨h.1, h.2.1, h.2.2.trans (by decide)⟩

/-- C9: with a configured maximum of zero tool rounds, the run makes
exactly one backend call, that call's request contains neither the tools
parameter nor a tool choice even when tools and a tool manager were
supplied, no tool is dispatched, and the call's first text is the
answer. -/
theorem c9_zero_rounds (backend : Nat → Response) (query : String)
    (conversation_history : Option String) (tools : List ToolSchema)
    (tool_manager : Option ToolManager) :
    (generate_response 0 backend query conversation_history tools
        tool_manager).requests.length = 1 ∧
    (∀ r ∈ (generate_response 0 backend query conversation_history tools
        tool_manager).requests, r.hasTools = false ∧ r.hasToolChoice = false) ∧
    (generate_response 0 backend query conversation_history tools
        tool_manager).dispatchRounds = [] ∧
    (generate_response 0 backend query conversation_history tools
        tool_manager).answer = firstText (backend 0) := by
  refine ⟨rfl, ?_, rfl, rfl⟩
  intro r hr
  simp [generate_response, toolLoop] at hr
  subst hr
  exact ⟨rfl, rfl⟩

/-- C2: with a tool manager and tools supplied, if all of the first
`maxToolRounds` responses request tool use, exactly `maxToolRounds`
tool-dispatch rounds occur, one additional final backend call is made
whose request contains neither the tools parameter nor a tool choice, and
that final response's first text is returned whatever its stop condition
is. -/
theorem c2_forced_final_without_tools (maxToolRounds : Nat) (backend : Nat → Response)
    (query : String) (conversation_history : Option String)
    (tools : List ToolSchema) (tm : ToolManager)
    (_htools : tools ≠ [])
    (hall : ∀ i, i < maxToolRounds → (backend i).stop_reason = "tool_use") :
    (generate_response maxToolRounds backend query conversation_history tools
        (some tm)).dispatchRounds.length = maxToolRounds ∧
    (generate_response maxToolRounds backend query conversation_history tools
        (some tm)).requests.length = maxToolRounds + 1 ∧
    ((generate_response maxToolRounds backend query conversation_history tools
        (some tm)).requests.getLast?.map fun r => (r.hasTools, r.hasToolChoice)) =
      some (false, false) ∧
    (generate_response maxToolRounds backend query conversation_history tools
        (some tm)).answer = firstText (backend maxToolRounds) := by
  have hall' : ∀ i, i < maxToolRounds → (backend (0 + i)).stop_reason = "tool_use" := by
    intro i hi; simpa using hall i hi
  obtain ⟨ha, hlen, hdlen, ms, hlast⟩ :=
    toolLoop_alltools backend tm (systemContent conversation_history) (!tools.isEmpty)
      maxToolRounds [Message.mk "user" (MessageContent.text query)] 0 hall'
  rw [generate_response_def]
  exact ⟨hdlen, hlen, by rw [hlast]; rfl, by simpa using ha⟩

/-- C2 witness: with `maxToolRounds = 2` and a backend that requests tool
use twice and then ends the turn, the run does 2 dispatch rounds, 3
backend calls, the last without tools or tool choice, and returns the
final text. -/
theorem c2_witness :
    (generate_response 2
        (fun i => if i < 2 then Response.mk "tool_use" [ContentBlock.mk "tool_use" "" "id1" "t" []]
                  else Response.mk "end_turn" [ContentBlock.mk "text" "S" "" "" []])
        "q" none ["s"] (some fun _ _ => "res")).dispatchRounds.length = 2 ∧
    (generate_response 2
        (fun i => if i < 2 then Response.mk "tool_use" [ContentBlock.mk "tool_use" "" "id1" "t" []]
                  else Response.mk "end_turn" [ContentBlock.mk "text" "S" "" "" []])
        "q" none ["s"] (some fun _ _ => "res")).requests.length = 3 ∧
    ((generate_response 2
        (fun i => if i < 2 then Response.mk "tool_use" [ContentBlock.mk "tool_use" "" "id1" "t" []]
                  else Response.mk "end_turn" [ContentBlock.mk "text" "S" "" "" []])
        "q" none ["s"] (some fun _ _ => "res")).requests.getLast?.map
          fun r => (r.hasTools, r.hasToolChoice)) = some (false, false) ∧
    (generate_response 2
        (fun i => if i < 2 then Response.mk "tool_use" [ContentBlock.mk "tool_use" "" "id1" "t" []]
                  else Response.mk "end_turn" [ContentBlock.mk "text" "S" "" "" []])
        "q" none ["s"] (some fun _ _ => "res")).answer = "S" := by
  have h := c2_forced_final_without_tools 2
    (fun i => if i < 2 then Response.mk "tool_use" [ContentBlock.mk "tool_use" "" "id1" "t" []]
              else Response.mk "end_turn" [ContentBlock.mk "text" "S" "" "" []])
    "q" none ["s"] (fun _ _ => "res") (by decide)
    (by intro i hi; simp [hi])
  exact ⟨h.1, h.2.1, h.2.2.1, h.2.2.2.trans (by decide)⟩

/-- If the loop sees tool-use responses for `k` rounds and a non-tool stop
condition at round `k`, with rounds remaining, it stops right there:
`k + 1` backend calls, `k` dispatch rounds, every request carrying the
tools flags the loop was entered with. -/
theorem toolLoop_early (backend : Nat → Response) (tm : ToolManager)
    (sys : String) (ht : Bool) :
    ∀ k fuel msgs n, k < fuel →
      (∀ i, i < k → (backend (n + i)).stop_reason = "tool_use") →
      (backend (n + k)).stop_reason ≠ "tool_use" →
      (toolLoop backend (some tm) sys ht fuel msgs n).answer =
        firstText (backend (n + k)) ∧
      (toolLoop backend (some tm) sys ht fuel msgs n).requests.length = k + 1 ∧
      (toolLoop backend (some tm) sys ht fuel msgs n).dispatchRounds.length = k ∧
      ∀ r ∈ (toolLoop backend (some tm) sys ht fuel msgs n).requests,
        r.hasTools = ht ∧ r.hasToolChoice = ht := by
  intro k
  induction k with
  | zero =>
    intro fuel msgs n hk hall hstop
    obtain ⟨f, rfl⟩ : ∃ f, fuel = f + 1 := ⟨fuel - 1, by omega⟩
    rw [Nat.add_zero] at hstop
    have hunf : toolLoop backend (some tm) sys ht (f + 1) msgs n =
        { answer := firstText (backend n)
          requests := [Request.mk sys msgs ht ht]
          dispatchRounds := [] } := by
      simp [toolLoop, hstop]
    rw [hunf]
    refine ⟨by simp, rfl, rfl, ?_⟩
    intro r hr
    simp at hr
    subst hr
    exact ⟨rfl, rfl⟩
  | succ k ih =>
    intro fuel msgs n hk hall hstop
    obtain ⟨f, rfl⟩ : ∃ f, fuel = f + 1 := ⟨fuel - 1, by omega⟩
    have h0 : (backend n).stop_reason = "tool_use" := by
      simpa using hall 0 (Nat.succ_pos k)
    have hall' : ∀ i, i < k → (backend (n + 1 + i)).stop_reason = "tool_use" := by
      intro i hi
      have h := hall (i + 1) (by omega)
      have e : n + (i + 1) = n + 1 + i := by omega
      rwa [e] at h
    have hstop' : (backend (n + 1 + k)).stop_reason ≠ "tool_use" := by
      have e : n + (k + 1) = n + 1 + k := by omega
      rwa [e] at hstop
    obtain ⟨ha, hlen, hdlen, hmem⟩ :=
      ih f (execute_tools_and_update_messages (backend n) msgs tm) (n + 1)
        (by omega) hall' hstop'
    have hunf : toolLoop backend (some tm) sys ht (f + 1) msgs n =
        { answer := (toolLoop backend (some tm) sys ht f
            (execute_tools_and_update_messages (backend n) msgs tm) (n + 1)).answer
          requests := Request.mk sys msgs ht ht ::
            (toolLoop backend (some tm) sys ht f
              (execute_tools_and_update_messages (backend n) msgs tm) (n + 1)).requests
          dispatchRounds := (runToolBlocks tm (backend n).content).2 ::
            (toolLoop backend (some tm) sys ht f
              (execute_tools_and_update_messages (backend n) msgs tm) (n + 1)).dispatchRounds } := by
      simp [toolLoop, h0]
    rw [hunf]
    have e : n + 1 + k = n + (k + 1) := by omega
    refine ⟨by simpa [e] using ha, by simp [hlen], by simp [hdlen], ?_⟩
    intro r hr
    simp at hr
    rcases hr with hr | hr
    · subst hr; exact ⟨rfl, rfl⟩
    · exact hmem r hr

/-- C5: with a tool manager and tools supplied, if the backend requests
tool use in rounds `1..k` with `k < maxToolRounds` and returns a non-tool
stop condition in round `k + 1`, exactly `k` dispatch rounds occur,
exactly `k + 1` backend calls are made, every request still carries the
tools parameter (no forced tools-absent final call), and the round-`k+1`
response's first text is the answer. -/
theorem c5_early_termination (maxToolRounds k : Nat) (backend : Nat → Response)
    (query : String) (conversation_history : Option String)
    (tools : List ToolSchema) (tm : ToolManager)
    (htools : tools ≠ [])
    (hk : k < maxToolRounds)
    (hall : ∀ i, i < k → (backend i).stop_reason = "tool_use")
    (hstop : (backend k).stop_reason ≠ "tool_use") :
    (generate_response maxToolRounds backend query conversation_history tools
        (some tm)).dispatchRounds.length = k ∧
    (generate_response maxToolRounds backend query conversation_history tools
        (some tm)).requests.length = k + 1 ∧
    (∀ r ∈ (generate_response maxToolRounds backend query conversation_history tools
        (some tm)).requests, r.hasTools = true ∧ r.hasToolChoice = true) ∧
    (generate_response maxToolRounds backend query conversation_history tools
        (some tm)).answer = firstText (backend k) := by
  have hE : (!tools.isEmpty) = true := by
    cases tools with
    | nil => exact absurd rfl htools
    | cons a t => rfl
  have hall' : ∀ i, i < k → (backend (0 + i)).stop_reason = "tool_use" := by
    intro i hi; simpa using hall i hi
  have hstop' : (backend (0 + k)).stop_reason ≠ "tool_use" := by
    simpa using hstop
  obtain ⟨ha, hlen, hdlen, hmem⟩ :=
    toolLoop_early backend tm (systemContent conversation_history) (!tools.isEmpty)
      k maxToolRounds [Message.mk "user" (MessageContent.text query)] 0 hk hall' hstop'
  rw [generate_response_def]
  refine ⟨hdlen, hlen, ?_, by simpa using ha⟩
  intro r hr
  obtain ⟨h1, h2⟩ := hmem r hr
  rw [hE] at h1 h2
  exact ⟨h1, h2⟩

/-- C5 witness: tool use in round 1 of 2, then an end-turn: one dispatch
round, two backend calls both carrying tools, and the second response's
text as the answer. -/
theorem c5_witness :
    (generate_response 2
        (fun i => if i < 1 then Response.mk "tool_use" [ContentBlock.mk "tool_use" "" "id1" "t" []]
                  else Response.mk "end_turn" [ContentBlock.mk "text" "D" "" "" []])
        "q" none ["s"] (some fun _ _ => "res")).dispatchRounds.length = 1 ∧
    (generate_response 2
        (fun i => if i < 1 then Response.mk "tool_use" [ContentBlock.mk "tool_use" "" "id1" "t" []]
                  else Response.mk "end_turn" [ContentBlock.mk "text" "D" "" "" []])
        "q" none ["s"] (some fun _ _ => "res")).requests.length = 2 ∧
    (∀ r ∈ (generate_response 2
        (fun i => if i < 1 then Response.mk "tool_use" [ContentBlock.mk "tool_use" "" "id1" "t" []]
                  else Response.mk "end_turn" [ContentBlock.mk "text" "D" "" "" []])
        "q" none ["s"] (some fun _ _ => "res")).requests,
      r.hasTools = true ∧ r.hasToolChoice = true) ∧
    (generate_response 2
        (fun i => if i < 1 then Response.mk "tool_use" [ContentBlock.mk "tool_use" "" "id1" "t" []]
                  else Response.mk "end_turn" [ContentBlock.mk "text" "D" "" "" []])
        "q" none ["s"] (some fun _ _ => "res")).answer = "D" := by
  have h := c5_early_termination 2 1
    (fun i => if i < 1 then Response.mk "tool_use" [ContentBlock.mk "tool_use" "" "id1" "t" []]
              else Response.mk "end_turn" [ContentBlock.mk "text" "D" "" "" []])
    "q" none ["s"] (fun _ _ => "res") (by decide) (by decide)
    (by intro i hi; simp [hi]) (by decide)
  exact ⟨h.1, h.2.1, h.2.2.1, h.2.2.2.trans (by decide)⟩

/-- On every terminating path of the loop, the answer is the first text of
the response to the last backend call made. -/
theorem toolLoop_answer_is_last_call (backend : Nat → Response)
    (tool_manager : Option ToolManager) (sys : String) (ht : Bool) :
    ∀ fuel msgs n,
      (toolLoop backend tool_manager sys ht fuel msgs n).answer =
        firstText (backend (n +
          ((toolLoop backend tool_manager sys ht fuel msgs n).requests.length - 1))) := by
  intro fuel
  induction fuel with
  | zero => intro msgs n; simp [toolLoop]
  | succ f ih =>
    intro msgs n
    by_cases h : (backend n).stop_reason = "tool_use"
    · cases tool_manager with
      | none => simp [toolLoop, h]
      | some tm =>
        have hpos := toolLoop_requests_length_pos backend (some tm) sys ht f
          (execute_tools_and_update_messages (backend n) msgs tm) (n + 1)
        have hunf : toolLoop backend (some tm) sys ht (f + 1) msgs n =
            { answer := (toolLoop backend (some tm) sys ht f
                (execute_tools_and_update_messages (backend n) msgs tm) (n + 1)).answer
              requests := Request.mk sys msgs ht ht ::
                (toolLoop backend (some tm) sys ht f
                  (execute_tools_and_update_messages (backend n) msgs tm) (n + 1)).requests
              dispatchRounds := (runToolBlocks tm (backend n).content).2 ::
                (toolLoop backend (some tm) sys ht f
                  (execute_tools_and_update_messages (backend n) msgs tm) (n + 1)).dispatchRounds } := by
          simp [toolLoop, h]
        rw [hunf]
        have hih := ih (execute_tools_and_update_messages (backend n) msgs tm) (n + 1)
        have e : n + 1 +
            ((toolLoop backend (some tm) sys ht f
              (execute_tools_and_update_messages (backend n) msgs tm) (n + 1)).requests.length - 1) =
            n + ((toolLoop backend (some tm) sys ht f
              (execute_tools_and_update_messages (backend n) msgs tm) (n + 1)).requests.length + 1 - 1) := by
          omega
        simpa [e] using hih
    · simp [toolLoop, h]

/-- C10: on every terminating path, the returned answer is exactly the
text of the first element of the final backend response's content list;
blocks after the first never reach the caller. -/
theorem c10_answer_is_first_content_text (maxToolRounds : Nat) (backend : Nat → Response)
    (query : String) (conversation_history : Option String)
    (tools : List ToolSchema) (tool_manager : Option ToolManager)
    (hne : (backend ((generate_response maxToolRounds backend query conversation_history
        tools tool_manager).requests.length - 1)).content ≠ []) :
    ((backend ((generate_response maxToolRounds backend query conversation_history
        tools tool_manager).requests.length - 1)).content.head?.map fun b => b.text) =
      some ((generate_response maxToolRounds backend query conversation_history
        tools tool_manager).answer) := by
  obtain ⟨a, l, hc⟩ := List.exists_cons_of_ne_nil hne
  have key := toolLoop_answer_is_last_call backend tool_manager
    (systemContent conversation_history) (!tools.isEmpty)
    maxToolRounds [Message.mk "user" (MessageContent.text query)] 0
  rw [generate_response_def] at hc ⊢
  rw [hc, key, Nat.zero_add]
  simp [firstText, hc]

/-- C10 witness: a run whose single backend response carries two text
blocks returns the first block's text only. -/
theorem c10_witness :
    (((fun _ : Nat => Response.mk "end_turn"
        [ContentBlock.mk "text" "A" "" "" [], ContentBlock.mk "text" "B" "" "" []])
      ((generate_response 2 (fun _ => Response.mk "end_turn"
          [ContentBlock.mk "text" "A" "" "" [], ContentBlock.mk "text" "B" "" "" []])
        "q" none [] none).requests.length - 1)).content.head?.map fun b => b.text) =
      some ((generate_response 2 (fun _ => Response.mk "end_turn"
          [ContentBlock.mk "text" "A" "" "" [], ContentBlock.mk "text" "B" "" "" []])
        "q" none [] none).answer) :=
  c10_answer_is_first_content_text 2
    (fun _ => Response.mk "end_turn"
      [ContentBlock.mk "text" "A" "" "" [], ContentBlock.mk "text" "B" "" "" []])
    "q" none [] none (by decide)

/-- C6: dispatching an unregistered tool name never raises — every
dispatch yields an ordinary `.ok` result — the lookup failure becomes
tool-result text carrying the "unknown tool" marker, that text is fed back
to the model as the result for the call identifier of the failing block,
and the conversation loop continues (a further backend call is made whose
request contains the batched unknown-tool result). -/
theorem c6_unknown_tool_never_raises (registry : ToolRegistry) (name : String)
    (kwargs : List (String × String)) (backend : Nat → Response) (query : String)
    (maxToolRounds : Nat) (cid txt : String)
    (hfind : registry.find? (fun p => p.1 == name) = none)
    (hmr : 1 ≤ maxToolRounds)
    (hstop : (backend 0).stop_reason = "tool_use")
    (hcontent : (backend 0).content = [ContentBlock.mk "tool_use" txt cid name kwargs]) :
    execute_tool registry name kwargs = Except.ok ("unknown tool: " ++ name) ∧
    (∀ (reg : ToolRegistry) (nm : String) (kw : List (String × String)),
      ∃ s, execute_tool reg nm kw = Except.ok s) ∧
    2 ≤ (generate_response maxToolRounds backend query none []
        (some (registryToolManager registry))).requests.length ∧
    ((generate_response maxToolRounds backend query none []
        (some (registryToolManager registry))).requests[1]?.map fun r => r.messages) =
      some [Message.mk "user" (MessageContent.text query),
            Message.mk "assistant"
              (MessageContent.blocks [ContentBlock.mk "tool_use" txt cid name kwargs]),
            Message.mk "user" (MessageContent.toolResults
              [ToolResultBlock.mk cid ("unknown tool: " ++ name)])] := by
  have h1 : execute_tool registry name kwargs = Except.ok ("unknown tool: " ++ name) := by
    simp [execute_tool, hfind]
  have h2 : ∀ (reg : ToolRegistry) (nm : String) (kw : List (String × String)),
      ∃ s, execute_tool reg nm kw = Except.ok s := by
    intro reg nm kw
    unfold execute_tool
    cases reg.find? (fun p => p.1 == nm) with
    | none => exact ⟨_, rfl⟩
    | some p => exact ⟨_, rfl⟩
  have htm : registryToolManager registry name kwargs = "unknown tool: " ++ name := by
    simp [registryToolManager, h1]
  have hmsgs : execute_tools_and_update_messages (backend 0)
      [Message.mk "user" (MessageContent.text query)] (registryToolManager registry) =
      [Message.mk "user" (MessageContent.text query),
       Message.mk "assistant"
         (MessageContent.blocks [ContentBlock.mk "tool_use" txt cid name kwargs]),
       Message.mk "user" (MessageContent.toolResults
         [ToolResultBlock.mk cid ("unknown tool: " ++ name)])] := by
    simp [execute_tools_and_update_messages, hcontent, runToolBlocks, htm]
  obtain ⟨f, rfl⟩ : ∃ f, maxToolRounds = f + 1 := ⟨maxToolRounds - 1, by omega⟩
  refine ⟨h1, h2, ?_, ?_⟩
  · rw [generate_response_def]
    have hpos := toolLoop_requests_length_pos backend (some (registryToolManager registry))
      (systemContent none) false f (execute_tools_and_update_messages (backend 0)
        [Message.mk "user" (MessageContent.text query)] (registryToolManager registry)) 1
    simp [toolLoop, hstop]
    omega
  · rw [generate_response_def]
    obtain ⟨b, c, hhead⟩ := toolLoop_requests_head backend (some (registryToolManager registry))
      (systemContent none) false f (execute_tools_and_update_messages (backend 0)
        [Message.mk "user" (MessageContent.text query)] (registryToolManager registry)) 1
    simp [toolLoop, hstop]
    refine ⟨Request.mk (systemContent none)
      (execute_tools_and_update_messages (backend 0)
        [Message.mk "user" (MessageContent.text query)] (registryToolManager registry))
      b c, ?_, ?_⟩
    · rw [getElem?_zero_eq_head?]
      exact hhead
    · exact hmsgs

/-- C6 witness: dispatching the unregistered name "nope" from an empty
registry inside a two-round run yields the unknown-tool result text,
raises nothing, and the loop proceeds to a second backend call carrying
that result. -/
theorem c6_witness :
    execute_tool [] "nope" [] = Except.ok ("unknown tool: " ++ "nope") ∧
    (∀ (reg : ToolRegistry) (nm : String) (kw : List (String × String)),
      ∃ s, execute_tool reg nm kw = Except.ok s) ∧
    2 ≤ (generate_response 2
        (fun _ => Response.mk "tool_use" [ContentBlock.mk "tool_use" "T" "id9" "nope" []])
        "q" none [] (some (registryToolManager []))).requests.length ∧
    ((generate_response 2
        (fun _ => Response.mk "tool_use" [ContentBlock.mk "tool_use" "T" "id9" "nope" []])
        "q" none [] (some (registryToolManager []))).requests[1]?.map fun r => r.messages) =
      some [Message.mk "user" (MessageContent.text "q"),
            Message.mk "assistant"
              (MessageContent.blocks [ContentBlock.mk "tool_use" "T" "id9" "nope" []]),
            Message.mk "user" (MessageContent.toolResults
              [ToolResultBlock.mk "id9" ("unknown tool: " ++ "nope")])] :=
  c6_unknown_tool_never_raises [] "nope" []
    (fun _ => Response.mk "tool_use" [ContentBlock.mk "tool_use" "T" "id9" "nope" []])
    "q" 2 "id9" "T" rfl (by decide) rfl rfl

/-- C8 (corrected) counterexample: in a concrete run with prior-session
text "H" and query "Q", the first backend request's message list is not a
two-element list whose first entry is prior context — it is the
single-element list `[user "Q"]`. -/
theorem c8_counterexample :
    ¬ ∃ (prior : Message) (r : Request),
        (generate_response 2
            (fun _ => Response.mk "end_turn" [ContentBlock.mk "text" "A" "" "" []])
            "Q" (some "H") [] none).requests.head? = some r ∧
        r.messages = [prior, Message.mk "user" (MessageContent.text "Q")] := by
  rintro ⟨prior, r, h1, h2⟩
  have hR : (generate_response 2
      (fun _ => Response.mk "end_turn" [ContentBlock.mk "text" "A" "" "" []])
      "Q" (some "H") [] none).requests.head? =
      some (Request.mk (systemContent (some "H"))
        [Message.mk "user" (MessageContent.text "Q")] false false) := rfl
  rw [hR] at h1
  obtain rfl : Request.mk (systemContent (some "H"))
      [Message.mk "user" (MessageContent.text "Q")] false false = r :=
    Option.some.inj h1
  simp at h2

/-- C8 (amended): with prior-session context available, the prior text is
not an entry of the message list: the first backend call's message list is
`[current user query]` alone, and the prior-session transcript is appended
to the system instruction text sent with that call. -/
theorem c8_history_in_system_not_messages (maxToolRounds : Nat)
    (backend : Nat → Response) (query : String) (tools : List ToolSchema)
    (tool_manager : Option ToolManager) (s : String) (hs : s.isEmpty = false) :
    ((generate_response maxToolRounds backend query (some s) tools
        tool_manager).requests.head?.map fun r => (r.system, r.messages)) =
      some (SYSTEM_PROMPT ++ "\n\nPrevious conversation:\n" ++ s,
            [Message.mk "user" (MessageContent.text query)]) := by
  obtain ⟨b, c, hhead⟩ := toolLoop_requests_head backend tool_manager
    (systemContent (some s)) (!tools.isEmpty) maxToolRounds
    [Message.mk "user" (MessageContent.text query)] 0
  rw [generate_response_def, hhead]
  simp [systemContent, hs]

/-- C8 (amended) witness: a concrete run with history "H" and query "Q"
sends `[user "Q"]` as the message list and the suffixed prompt as the
system text of its first backend call. -/
theorem c8_witness :
    ((generate_response 2
        (fun _ => Response.mk "end_turn" [ContentBlock.mk "text" "A" "" "" []])
        "Q" (some "H") [] none).requests.head?.map fun r => (r.system, r.messages)) =
      some (SYSTEM_PROMPT ++ "\n\nPrevious conversation:\n" ++ "H",
            [Message.mk "user" (MessageContent.text "Q")]) :=
  c8_history_in_system_not_messages 2
    (fun _ => Response.mk "end_turn" [ContentBlock.mk "text" "A" "" "" []])
    "Q" [] none "H" rfl

end AIGen
